import Mathlib

/-!
Verification of the AMDP (Apple Music Discord Presence) repository against
its natural-language specification.

The repository ships a TypeScript frontend (`src/src/main.ts` and the
settings page) together with design documentation for the Rust backend core
(track poller, artwork resolver, Discord presence session, synchronization
controller).  The frontend functions are embedded here directly from the
TypeScript source.  The backend core components are not part of the shipped
source tree; definitions for them below are modelled from the specification
text and are marked as such in their doc comments.

Numeric model: JavaScript / Rust `f64` values that the program only ever
feeds through exact arithmetic (floor, subtraction, comparison) are modelled
as `ℚ`; unix timestamps are `ℚ`; the artwork-cache clock is `ℕ` (seconds).
-/

namespace AMDP

/-! ## Frontend embedding (src/src/main.ts) -/

/-- The `TrackInfo` interface of `src/src/main.ts`. -/
structure TrackInfo where
  name : String
  artist : String
  album : String
  durationSecs : ℚ
  positionSecs : ℚ
  isPlaying : Bool
deriving DecidableEq

/-- JavaScript `Math.trunc`-style truncation toward zero on exact values,
used to model the `%` remainder operator. -/
def jsTrunc (q : ℚ) : ℤ :=
  if 0 ≤ q then ⌊q⌋ else -⌊-q⌋

/-- The JavaScript `%` operator on numbers: `x % y = x - y * trunc (x / y)`
(the result carries the sign of the dividend). -/
def jsFmod (x y : ℚ) : ℚ :=
  x - y * (jsTrunc (x / y) : ℚ)

/-- `String.prototype.padStart(n, c)`: left-pad with `c` up to length `n`;
a string already at least `n` long is returned unchanged. -/
def padStart (s : String) (n : Nat) (c : Char) : String :=
  String.mk (List.replicate (n - s.length) c) ++ s

/-- `formatTime` from `src/src/main.ts` lines 13-17 / 71-75:
`Math.floor(secs / 60)` minutes, colon, `Math.floor(secs % 60)` seconds
padded with `padStart(2, "0")`. -/
def formatTime (secs : ℚ) : String :=
  let minutes : ℤ := ⌊secs / 60⌋
  let seconds : ℤ := ⌊jsFmod secs 60⌋
  toString minutes ++ ":" ++ padStart (toString seconds) 2 '0'

/-- The mutable DOM pieces that `updateDisplay` touches: the status element
(text and class), the hidden flag of the track-info element, and the five
track-detail text fields. -/
structure DisplayState where
  statusText : String
  statusClass : String
  trackInfoHidden : Bool
  trackName : String
  trackArtist : String
  trackAlbum : String
  trackDuration : String
  trackPosition : String
deriving DecidableEq

/-- `updateDisplay` from `src/src/main.ts` lines 19-43 / 77-101, as a
function on the DOM state it mutates.  A `null` track sets the status line
to "Nothing playing" with the stopped style, hides the track-info element
and returns early; a track sets "Now Playing" or "Paused", unhides the
element and rewrites every detail field. -/
def updateDisplay (track : Option TrackInfo) (d : DisplayState) : DisplayState :=
  match track with
  | none =>
      { d with
        statusText := "Nothing playing"
        statusClass := "status stopped"
        trackInfoHidden := true }
  | some t =>
      { statusText := if t.isPlaying then "Now Playing" else "Paused"
        statusClass := "status " ++ (if t.isPlaying then "playing" else "paused")
        trackInfoHidden := false
        trackName := t.name
        trackArtist := t.artist
        trackAlbum := t.album
        trackDuration := formatTime t.durationSecs
        trackPosition := formatTime t.positionSecs }

/-- The `DiscordStatus` union of `src/src/main.ts` lines 65-69: three string
literals plus an object carrying an error message. -/
inductive DiscordStatus where
  | disconnected
  | connecting
  | connected
  | error (msg : String)
deriving DecidableEq

/-- The underlying string literal of a plain (string-typed) status value. -/
def statusLiteral : DiscordStatus → String
  | .disconnected => "disconnected"
  | .connecting => "connecting"
  | .connected => "connected"
  | .error _ => ""

/-- `status.charAt(0).toUpperCase() + status.slice(1)` from line 108. -/
def capitalizeFirst (s : String) : String :=
  match s.data with
  | [] => ""
  | c :: rest => String.mk (c.toUpper :: rest)

/-- `updateDiscordStatus` from `src/src/main.ts` lines 103-114, as the
(textContent, className) pair it writes to the `discord-status` element. -/
def updateDiscordStatus (status : DiscordStatus) : String × String :=
  match status with
  | .error msg => ("Error: " ++ msg, "discord-status error")
  | s => (capitalizeFirst (statusLiteral s), "discord-status " ++ statusLiteral s)

/-! ## Backend core, modelled from the specification

The Rust backend (`src-tauri/src/*.rs` in the documented project layout) is
not part of the shipped source tree — only the frontend and the design
documents are.  Every definition below is therefore modelled from the
specification text (spec.md §3, §4.1-§4.4) and the dev plan. -/

/-- Modelled from the spec: `ArtworkRef`, §3 — "a resolved image locator
(external URL) or a sentinel default asset value". -/
inductive ArtworkRef where
  | url (u : String)
  | defaultAsset
deriving DecidableEq

/-- Modelled from the spec: `ArtCacheEntry` value part, §3 — the resolved
URL and the resolution timestamp (seconds); the normalized key is held as
the map key of the tier it lives in. -/
structure ArtCacheEntry where
  url : String
  resolvedAt : ℕ
deriving DecidableEq

/-- Modelled from the spec: the 30-day cache TTL of §3/§4.3, in seconds. -/
def ttlSecs : ℕ := 30 * 24 * 60 * 60

/-- Modelled from the spec: the memory-tier capacity of §4.3 (500 entries). -/
def memCapacity : ℕ := 500

/-- Modelled from the spec: lazy TTL check of §3/§4.3 — an entry older than
30 days is treated as a miss. -/
def freshAt (now : ℕ) (e : ArtCacheEntry) : Bool :=
  now - e.resolvedAt ≤ ttlSecs

/-- Modelled from the spec: association lookup in one cache tier.  A tier is
an association list of (normalized key, entry) pairs; the memory tier keeps
most-recently-used entries first (the explicit LRU index of §9). -/
def lookupAssoc (key : String) (l : List (String × ArtCacheEntry)) :
    Option ArtCacheEntry :=
  (l.find? (fun p => p.1 == key)).map (fun p => p.2)

/-- Modelled from the spec: tier lookup with the lazy TTL check — an expired
entry counts as a miss (§4.3). -/
def lookupFresh (now : ℕ) (key : String) (l : List (String × ArtCacheEntry)) :
    Option ArtCacheEntry :=
  match lookupAssoc key l with
  | some e => if freshAt now e then some e else none
  | none => none

/-- Modelled from the spec: remove any existing entry for a key from a tier. -/
def eraseKey (key : String) (l : List (String × ArtCacheEntry)) :
    List (String × ArtCacheEntry) :=
  l.filter (fun p => p.1 != key)

/-- Modelled from the spec: memory-tier insert of §4.3 — the entry moves to
the most-recently-used position and strict LRU eviction runs synchronously
as part of the insert, truncating to the 500-entry capacity. -/
def insertMem (key : String) (e : ArtCacheEntry)
    (mem : List (String × ArtCacheEntry)) : List (String × ArtCacheEntry) :=
  ((key, e) :: eraseKey key mem).take memCapacity

/-- Modelled from the spec: disk-tier insert (unbounded persisted map, §3). -/
def insertDisk (key : String) (e : ArtCacheEntry)
    (disk : List (String × ArtCacheEntry)) : List (String × ArtCacheEntry) :=
  (key, e) :: eraseKey key disk

/-- Modelled from the spec: the case-folded `"artist::album"` cache key of
§3/§4.3. -/
def normKey (artist album : String) : String :=
  artist.toLower ++ "::" ++ album.toLower

/-- Modelled from the spec: the two cache tiers of the artwork resolver —
bounded in-memory LRU list (most recent first) and persisted disk map. -/
structure ResolverState where
  mem : List (String × ArtCacheEntry)
  disk : List (String × ArtCacheEntry)
deriving DecidableEq

/-- Modelled from the spec: `resolve(artist, album)` of §4.3.  The external
search outcome for this call is the `ext` argument: `some url` for a
successful lookup, `none` for every failure mode the spec folds into the
default asset (timeout, error, rate-limit timeout, empty result).  Lookup
order: fresh memory hit (LRU touch) → fresh disk hit (promoted to memory)
→ external search; on success write-through both tiers, on failure return
the default asset with both tiers untouched (no negative entry). -/
def resolve (now : ℕ) (ext : Option String) (artist album : String)
    (st : ResolverState) : ArtworkRef × ResolverState :=
  let key := normKey artist album
  match lookupFresh now key st.mem with
  | some e => (ArtworkRef.url e.url, { st with mem := insertMem key e st.mem })
  | none =>
    match lookupFresh now key st.disk with
    | some e => (ArtworkRef.url e.url, { st with mem := insertMem key e st.mem })
    | none =>
      match ext with
      | some u =>
          (ArtworkRef.url u,
            { mem := insertMem key { url := u, resolvedAt := now } st.mem,
              disk := insertDisk key { url := u, resolvedAt := now } st.disk })
      | none => (ArtworkRef.defaultAsset, st)

/-- Modelled from the spec: `PlaybackSnapshot` of §3. -/
structure PlaybackSnapshot where
  title : String
  artist : String
  album : String
  durationSecs : ℚ
  positionSecs : ℚ
  isPlaying : Bool
deriving DecidableEq

/-- Modelled from the spec: snapshot ingestion of §3 — a position outside
`[0, duration]` is clamped into the range, never rejected; a negative
duration from a noisy source is likewise clamped to 0 so the invariant can
hold. -/
def ingestSnapshot (title artist album : String)
    (durationSecs positionSecs : ℚ) (isPlaying : Bool) : PlaybackSnapshot :=
  let d := max 0 durationSecs
  { title := title
    artist := artist
    album := album
    durationSecs := d
    positionSecs := max 0 (min positionSecs d)
    isPlaying := isPlaying }

/-- Modelled from the spec: the poller's structural comparison of §4.1 —
title, artist, album, isPlaying, and position quantized to whole seconds. -/
def quantEq (a b : PlaybackSnapshot) : Bool :=
  a.title == b.title && a.artist == b.artist && a.album == b.album &&
  a.isPlaying == b.isPlaying && (⌊a.positionSecs⌋ == ⌊b.positionSecs⌋)

/-- Modelled from the spec: one poller comparison step of §4.1 — given the
previously emitted snapshot-or-absent and the current poll result, emit
`some event` (carrying the new snapshot-or-absent) on first difference and
`none` when nothing changed under the quantized comparison. -/
def pollStep (prev current : Option PlaybackSnapshot) :
    Option (Option PlaybackSnapshot) :=
  match prev, current with
  | some p, some c => if quantEq p c then none else some (some c)
  | none, none => none
  | _, c => some c

/-- Modelled from the spec: the activity frame of §4.4 — title/artist lines,
elapsed/remaining timestamps `start = now - positionSecs`,
`end = start + durationSecs`, and the resolved image reference. -/
structure ActivityFrame where
  detailsLine : String
  stateLine : String
  startTs : ℚ
  endTs : ℚ
  largeImage : ArtworkRef
deriving DecidableEq

/-- Modelled from the spec: activity-frame construction (§4.4, dev plan
§2.2/§2.4). -/
def buildActivity (now : ℚ) (s : PlaybackSnapshot) (art : ArtworkRef) :
    ActivityFrame :=
  { detailsLine := s.title
    stateLine := "by " ++ s.artist
    startTs := now - s.positionSecs
    endTs := now - s.positionSecs + s.durationSecs
    largeImage := art }

/-- Modelled from the spec: the publish fingerprint of §4.2 and the glossary
— track identity plus the position bucketed to the nearest 5 seconds. -/
structure Fingerprint where
  title : String
  artist : String
  album : String
  positionBucket : ℤ
deriving DecidableEq

/-- Modelled from the spec: fingerprint of a playing snapshot (§4.2). -/
def fingerprint (s : PlaybackSnapshot) : Fingerprint :=
  { title := s.title
    artist := s.artist
    album := s.album
    positionBucket := round (s.positionSecs / 5) }

/-- Modelled from the spec: one publish decision of §4.2 — a tick whose
fingerprint equals the last-activity-sent fingerprint is swallowed; any
other tick sends exactly one activity frame and records its fingerprint. -/
def publishTick (now : ℚ) (s : PlaybackSnapshot) (art : ArtworkRef)
    (last : Option Fingerprint) : Option ActivityFrame × Option Fingerprint :=
  if last = some (fingerprint s) then (none, last)
  else (some (buildActivity now s art), some (fingerprint s))

/-- Modelled from the spec: connection states of the Presence Session
(§4.4); `connecting` carries the reconnect-attempt counter (§9: explicit
backoff counter as data). -/
inductive ConnState where
  | disconnected
  | connecting (attempt : ℕ)
  | connected
deriving DecidableEq

/-- Modelled from the spec: the Presence Session's reconnection-relevant
state — connection state, feature-enabled flag, and the last known Playing
payload to re-publish after a successful handshake (§8 scenario). -/
structure SessionState where
  conn : ConnState
  enabled : Bool
  lastPlaying : Option (PlaybackSnapshot × ArtworkRef)
deriving DecidableEq

/-- Modelled from the spec: the reconnect delay before attempt `n` —
exponential backoff starting at 1 s, doubling, capped at 30 s (§4.4). -/
def backoffDelaySecs (attempt : ℕ) : ℕ :=
  min (2 ^ attempt) 30

/-- Modelled from the spec: reaction to a dropped connection (§4.4) — while
enabled, enter `connecting` with the backoff counter reset to 0. -/
def onDisconnect (st : SessionState) : SessionState :=
  if st.enabled then { st with conn := ConnState.connecting 0 }
  else { st with conn := ConnState.disconnected }

/-- Modelled from the spec: reaction to a failed connection attempt (§4.4)
— while enabled, stay in `connecting` with the counter advanced (retried
indefinitely, never a give-up state); when disabled, fall back to
`disconnected`. -/
def onAttemptFailed (st : SessionState) : SessionState :=
  match st.conn with
  | ConnState.connecting n =>
      if st.enabled then { st with conn := ConnState.connecting (n + 1) }
      else { st with conn := ConnState.disconnected }
  | _ => st

/-- Modelled from the spec: reaction to an accepted handshake (§8 scenario)
— become `connected` and re-publish the last known Playing state, when one
exists. -/
def onHandshakeAccepted (now : ℚ) (st : SessionState) :
    SessionState × Option ActivityFrame :=
  ({ st with conn := ConnState.connected },
   st.lastPlaying.map (fun pa => buildActivity now pa.1 pa.2))

/-- A concrete 500-entry memory tier (keys "0" … "499") used to exercise the
cache-bound theorem at its capacity. -/
def witnessMem : List (String × ArtCacheEntry) :=
  (List.range memCapacity).map
    (fun i => (toString i, { url := "u", resolvedAt := 0 }))

/-- A concrete session state used to exercise the reconnection theorem. -/
def witnessSession : SessionState :=
  { conn := ConnState.connecting 3
    enabled := true
    lastPlaying :=
      some (PlaybackSnapshot.mk "A" "B" "C" 200 10 true, ArtworkRef.defaultAsset) }

/-! ## Helper lemmas -/

theorem padStart_length (s : String) (n : Nat) (c : Char) :
    (padStart s n c).length = max n s.length := by
  simp only [padStart, String.length_append]
  have h : (String.mk (List.replicate (n - s.length) c)).length =
      (List.replicate (n - s.length) c).length := rfl
  rw [h, List.length_replicate]
  omega

theorem floor_div_sixty (q : ℚ) : ⌊q / 60⌋ = ⌊q⌋ / 60 := by
  have h1 : (0 : ℤ) ≤ ⌊q⌋ % 60 := Int.emod_nonneg _ (by norm_num)
  have h2 : ⌊q⌋ % 60 < 60 := Int.emod_lt_of_pos _ (by norm_num)
  have h3 : ⌊q⌋ % 60 = ⌊q⌋ - 60 * (⌊q⌋ / 60) := by
    rw [Int.emod_def]
  rw [Int.floor_eq_iff]
  constructor
  · rw [le_div_iff₀ (by norm_num : (0 : ℚ) < 60)]
    have hz : ((⌊q⌋ / 60 : ℤ) : ℚ) * 60 = ((⌊q⌋ / 60 * 60 : ℤ) : ℚ) := by push_cast; ring
    rw [hz]
    calc ((⌊q⌋ / 60 * 60 : ℤ) : ℚ) ≤ ((⌊q⌋ : ℤ) : ℚ) := by
          exact_mod_cast (by omega : ⌊q⌋ / 60 * 60 ≤ ⌊q⌋)
      _ ≤ q := Int.floor_le q
  · rw [div_lt_iff₀ (by norm_num : (0 : ℚ) < 60)]
    have hlt : q < (⌊q⌋ : ℚ) + 1 := Int.lt_floor_add_one q
    have hle : (⌊q⌋ : ℚ) + 1 ≤ ((⌊q⌋ / 60 : ℤ) : ℚ) * 60 + 60 := by
      have h4 : ⌊q⌋ + 1 ≤ ⌊q⌋ / 60 * 60 + 60 := by omega
      calc (⌊q⌋ : ℚ) + 1 = ((⌊q⌋ + 1 : ℤ) : ℚ) := by push_cast; ring
        _ ≤ ((⌊q⌋ / 60 * 60 + 60 : ℤ) : ℚ) := by exact_mod_cast h4
        _ = ((⌊q⌋ / 60 : ℤ) : ℚ) * 60 + 60 := by push_cast; ring
    calc q < (⌊q⌋ : ℚ) + 1 := hlt
      _ ≤ ((⌊q⌋ / 60 : ℤ) : ℚ) * 60 + 60 := hle
      _ = (((⌊q⌋ / 60 : ℤ) : ℚ) + 1) * 60 := by ring

theorem floor_jsFmod_sixty (q : ℚ) (h : 0 ≤ q) : ⌊jsFmod q 60⌋ = ⌊q⌋ % 60 := by
  have hq : 0 ≤ q / 60 := by positivity
  have ht : jsTrunc (q / 60) = ⌊q / 60⌋ := by
    simp [jsTrunc, hq]
  have hcast : (60 : ℚ) * ((⌊q / 60⌋ : ℤ) : ℚ) = ((60 * ⌊q / 60⌋ : ℤ) : ℚ) := by
    push_cast; ring
  have hm : jsFmod q 60 = q - ((60 * ⌊q / 60⌋ : ℤ) : ℚ) := by
    rw [jsFmod, ht, hcast]
  rw [hm, Int.floor_sub_int, floor_div_sixty]
  omega

theorem two_digit_length (k : ℤ) (h0 : 0 ≤ k) (h59 : k ≤ 59) :
    (padStart (toString k) 2 '0').length = 2 := by
  interval_cases k <;> decide

theorem eraseKey_of_lookup_none (key : String)
    (l : List (String × ArtCacheEntry)) (h : lookupAssoc key l = none) :
    eraseKey key l = l := by
  have hfind : l.find? (fun p => p.1 == key) = none := by
    simpa only [lookupAssoc, Option.map_eq_none'] using h
  rw [List.find?_eq_none] at hfind
  apply List.filter_eq_self.mpr
  intro a ha
  have := hfind a ha
  simpa [bne] using this

/-! ## Claim theorems -/

/-- C10: for every nonnegative number of seconds, `formatTime` returns
`floor(secs/60)`, a colon, and `floor(secs mod 60)` zero-padded to exactly
two digits; the seconds field always lies between 0 and 59, so the display
rounds down and never shows a seconds value of 60 or more. -/
theorem formatTime_minutes_colon_two_digit_seconds (q : ℚ) (h : 0 ≤ q) :
    formatTime q =
      toString ⌊q / 60⌋ ++ ":" ++ padStart (toString (⌊q⌋ % 60)) 2 '0' ∧
    0 ≤ ⌊q⌋ % 60 ∧ ⌊q⌋ % 60 ≤ 59 ∧
    (padStart (toString (⌊q⌋ % 60)) 2 '0').length = 2 := by
  have h0 : (0 : ℤ) ≤ ⌊q⌋ % 60 := Int.emod_nonneg _ (by norm_num)
  have h59 : ⌊q⌋ % 60 ≤ 59 := by
    have := Int.emod_lt_of_pos ⌊q⌋ (by norm_num : (0:ℤ) < 60)
    omega
  refine ⟨?_, h0, h59, two_digit_length _ h0 h59⟩
  simp only [formatTime]
  rw [floor_jsFmod_sixty q h]

/-- Witness for C10 at the concrete input 125.5 seconds. -/
theorem formatTime_minutes_colon_two_digit_seconds_witness :
    formatTime (251/2 : ℚ) =
      toString ⌊(251/2 : ℚ) / 60⌋ ++ ":" ++
        padStart (toString (⌊(251/2 : ℚ)⌋ % 60)) 2 '0' ∧
    0 ≤ ⌊(251/2 : ℚ)⌋ % 60 ∧ ⌊(251/2 : ℚ)⌋ % 60 ≤ 59 ∧
    (padStart (toString (⌊(251/2 : ℚ)⌋ % 60)) 2 '0').length = 2 :=
  formatTime_minutes_colon_two_digit_seconds (251/2 : ℚ) (by norm_num)

/-- C9: on a null track, `updateDisplay` sets the status text to
"Nothing playing" with the stopped style, hides the track-info element and
leaves every track-detail field untouched; on a non-null track the status
text is "Now Playing" when `isPlaying` and "Paused" otherwise. -/
theorem updateDisplay_null_and_playing (d : DisplayState) (t : TrackInfo) :
    (updateDisplay none d).statusText = "Nothing playing" ∧
    (updateDisplay none d).statusClass = "status stopped" ∧
    (updateDisplay none d).trackInfoHidden = true ∧
    (updateDisplay none d).trackName = d.trackName ∧
    (updateDisplay none d).trackArtist = d.trackArtist ∧
    (updateDisplay none d).trackAlbum = d.trackAlbum ∧
    (updateDisplay none d).trackDuration = d.trackDuration ∧
    (updateDisplay none d).trackPosition = d.trackPosition ∧
    (updateDisplay (some t) d).statusText =
      (if t.isPlaying then "Now Playing" else "Paused") := by
  exact ⟨rfl, rfl, rfl, rfl, rfl, rfl, rfl, rfl, rfl⟩

/-- C8: the connectivity status exposed to the UI is one of exactly four
shapes — disconnected, connecting, connected, or an error carrying a
message — and `updateDiscordStatus` renders the error case as
"Error: message" with the error class and each plain case under its own
name (capitalised text, name-carrying class). -/
theorem discordStatus_four_shapes_render :
    (∀ s : DiscordStatus,
      s = .disconnected ∨ s = .connecting ∨ s = .connected ∨
        ∃ m, s = .error m) ∧
    updateDiscordStatus .disconnected =
      ("Disconnected", "discord-status disconnected") ∧
    updateDiscordStatus .connecting =
      ("Connecting", "discord-status connecting") ∧
    updateDiscordStatus .connected =
      ("Connected", "discord-status connected") ∧
    ∀ m, updateDiscordStatus (.error m) =
      ("Error: " ++ m, "discord-status error") := by
  refine ⟨fun s => ?_, by decide, by decide, by decide, fun m => rfl⟩
  cases s with
  | disconnected => exact Or.inl rfl
  | connecting => exact Or.inr (Or.inl rfl)
  | connected => exact Or.inr (Or.inr (Or.inl rfl))
  | error m => exact Or.inr (Or.inr (Or.inr ⟨m, rfl⟩))

/-- C1: `resolve` is total — every call returns a resolved URL or the
default-asset sentinel — and on external-lookup failure or empty result it
returns the default asset with both cache tiers completely untouched (no
negative entry), so a later call for the same key reaches the external
search again. -/
theorem resolve_total_default_no_negative_cache
    (now later : ℕ) (artist album u : String) (st : ResolverState)
    (hmem : lookupFresh now (normKey artist album) st.mem = none)
    (hdisk : lookupFresh now (normKey artist album) st.disk = none)
    (hmem2 : lookupFresh later (normKey artist album) st.mem = none)
    (hdisk2 : lookupFresh later (normKey artist album) st.disk = none) :
    (∀ (n : ℕ) (e : Option String) (a b : String) (s : ResolverState),
      (∃ v, (resolve n e a b s).1 = ArtworkRef.url v) ∨
        (resolve n e a b s).1 = ArtworkRef.defaultAsset) ∧
    resolve now none artist album st = (ArtworkRef.defaultAsset, st) ∧
    (resolve later (some u) artist album
        (resolve now none artist album st).2).1 = ArtworkRef.url u := by
  have htotal : ∀ (n : ℕ) (e : Option String) (a b : String) (s : ResolverState),
      (∃ v, (resolve n e a b s).1 = ArtworkRef.url v) ∨
        (resolve n e a b s).1 = ArtworkRef.defaultAsset := by
    intro n e a b s
    cases h : (resolve n e a b s).1 with
    | url v => exact Or.inl ⟨v, rfl⟩
    | defaultAsset => exact Or.inr rfl
  have hfail : resolve now none artist album st = (ArtworkRef.defaultAsset, st) := by
    simp [resolve, hmem, hdisk]
  refine ⟨htotal, hfail, ?_⟩
  rw [hfail]
  simp [resolve, hmem2, hdisk2]

/-- Witness for C1: empty caches, a failed lookup for "B"/"C", then a
successful retry for the same key. -/
theorem resolve_total_default_no_negative_cache_witness :
    (∀ (n : ℕ) (e : Option String) (a b : String) (s : ResolverState),
      (∃ v, (resolve n e a b s).1 = ArtworkRef.url v) ∨
        (resolve n e a b s).1 = ArtworkRef.defaultAsset) ∧
    resolve 0 none "B" "C" (ResolverState.mk [] []) =
      (ArtworkRef.defaultAsset, ResolverState.mk [] []) ∧
    (resolve 5 (some "https://img.example/a.jpg") "B" "C"
        (resolve 0 none "B" "C" (ResolverState.mk [] [])).2).1 =
      ArtworkRef.url "https://img.example/a.jpg" :=
  resolve_total_default_no_negative_cache 0 5 "B" "C" "https://img.example/a.jpg"
    (ResolverState.mk [] []) rfl rfl rfl rfl

/-- C2: the memory tier never exceeds its 500-entry capacity after any
insert, and inserting a 501st distinct key leaves exactly 500 entries, with
the least-recently-used entry (the last of the recency-ordered list)
evicted synchronously by that insert: the result is the new entry in front
of all but the last old entry. -/
theorem memCache_capacity_lru (key : String) (e : ArtCacheEntry)
    (mem : List (String × ArtCacheEntry))
    (hfull : mem.length = memCapacity)
    (hnew : lookupAssoc key mem = none) :
    (∀ (k : String) (en : ArtCacheEntry) (m : List (String × ArtCacheEntry)),
      (insertMem k en m).length ≤ memCapacity) ∧
    (insertMem key e mem).length = memCapacity ∧
    insertMem key e mem = (key, e) :: mem.dropLast := by
  have hbound : ∀ (k : String) (en : ArtCacheEntry)
      (m : List (String × ArtCacheEntry)),
      (insertMem k en m).length ≤ memCapacity := by
    intro k en m
    simp only [insertMem, List.length_take]
    exact min_le_left _ _
  have herase : eraseKey key mem = mem := eraseKey_of_lookup_none key mem hnew
  have hstep : insertMem key e mem = (key, e) :: mem.take (memCapacity - 1) := by
    simp only [insertMem, herase]
    rw [show memCapacity = 499 + 1 from rfl, List.take_succ_cons]
  have htake : mem.take (memCapacity - 1) = mem.dropLast := by
    rw [List.dropLast_eq_take, hfull]
  refine ⟨hbound, ?_, by rw [hstep, htake]⟩
  rw [hstep, htake, List.length_cons, List.length_dropLast, hfull]
  norm_num [memCapacity]

set_option maxRecDepth 10000 in
/-- Witness for C2: a concrete full tier of 500 distinct keys and a fresh
501st key. -/
theorem memCache_capacity_lru_witness :
    (∀ (k : String) (en : ArtCacheEntry) (m : List (String × ArtCacheEntry)),
      (insertMem k en m).length ≤ memCapacity) ∧
    (insertMem "k" (ArtCacheEntry.mk "u" 0) witnessMem).length = memCapacity ∧
    insertMem "k" (ArtCacheEntry.mk "u" 0) witnessMem =
      ("k", ArtCacheEntry.mk "u" 0) :: witnessMem.dropLast :=
  memCache_capacity_lru "k" (ArtCacheEntry.mk "u" 0) witnessMem
    (by simp [witnessMem]) (by decide)

/-- C3: publishing is idempotent on the fingerprint — after any first tick,
a second tick whose snapshot has the same fingerprint is swallowed (emits
no frame), so the two ticks produce at most one outbound activity frame. -/
theorem publish_fingerprint_idempotent
    (now1 now2 : ℚ) (s1 s2 : PlaybackSnapshot) (a1 a2 : ArtworkRef)
    (last : Option Fingerprint)
    (hfp : fingerprint s1 = fingerprint s2) :
    (publishTick now2 s2 a2 (publishTick now1 s1 a1 last).2).1 = none ∧
    ((if (publishTick now1 s1 a1 last).1.isSome then 1 else 0) +
      (if (publishTick now2 s2 a2 (publishTick now1 s1 a1 last).2).1.isSome
        then 1 else 0) : ℕ) ≤ 1 := by
  have h2 : (publishTick now1 s1 a1 last).2 = some (fingerprint s1) := by
    simp only [publishTick]
    split
    · rename_i h; rw [h]
    · rfl
  have hnone : (publishTick now2 s2 a2 (publishTick now1 s1 a1 last).2).1 = none := by
    rw [h2]
    simp [publishTick, hfp]
  refine ⟨hnone, ?_⟩
  rw [hnone]
  cases h : (publishTick now1 s1 a1 last).1.isSome <;> simp [h]

/-- Witness for C3: two consecutive ticks of the identical snapshot starting
from a fresh session. -/
theorem publish_fingerprint_idempotent_witness :
    (publishTick 1005 (PlaybackSnapshot.mk "A" "B" "C" 200 10 true)
        ArtworkRef.defaultAsset
        (publishTick 1000 (PlaybackSnapshot.mk "A" "B" "C" 200 10 true)
          ArtworkRef.defaultAsset none).2).1 = none ∧
    ((if (publishTick 1000 (PlaybackSnapshot.mk "A" "B" "C" 200 10 true)
        ArtworkRef.defaultAsset none).1.isSome then 1 else 0) +
      (if (publishTick 1005 (PlaybackSnapshot.mk "A" "B" "C" 200 10 true)
        ArtworkRef.defaultAsset
        (publishTick 1000 (PlaybackSnapshot.mk "A" "B" "C" 200 10 true)
          ArtworkRef.defaultAsset none).2).1.isSome then 1 else 0) : ℕ) ≤ 1 :=
  publish_fingerprint_idempotent 1000 1005
    (PlaybackSnapshot.mk "A" "B" "C" 200 10 true)
    (PlaybackSnapshot.mk "A" "B" "C" 200 10 true)
    ArtworkRef.defaultAsset ArtworkRef.defaultAsset none rfl

/-- C4 counterexample: two snapshots agreeing on title, artist, album and
isPlaying whose positions differ by 0.1 s (< 1 s) still trigger a change
event, because 0.9 and 1.0 quantize to different whole seconds. -/
theorem pollStep_subsecond_jitter_counterexample :
    (PlaybackSnapshot.mk "A" "B" "C" 200 (9/10) true).title =
      (PlaybackSnapshot.mk "A" "B" "C" 200 1 true).title ∧
    (PlaybackSnapshot.mk "A" "B" "C" 200 (9/10) true).artist =
      (PlaybackSnapshot.mk "A" "B" "C" 200 1 true).artist ∧
    (PlaybackSnapshot.mk "A" "B" "C" 200 (9/10) true).album =
      (PlaybackSnapshot.mk "A" "B" "C" 200 1 true).album ∧
    (PlaybackSnapshot.mk "A" "B" "C" 200 (9/10) true).isPlaying =
      (PlaybackSnapshot.mk "A" "B" "C" 200 1 true).isPlaying ∧
    |(PlaybackSnapshot.mk "A" "B" "C" 200 (9/10) true).positionSecs -
      (PlaybackSnapshot.mk "A" "B" "C" 200 1 true).positionSecs| < 1 ∧
    pollStep (some (PlaybackSnapshot.mk "A" "B" "C" 200 (9/10) true))
      (some (PlaybackSnapshot.mk "A" "B" "C" 200 1 true)) ≠ none := by
  refine ⟨rfl, rfl, rfl, rfl, ?_, ?_⟩
  · show |(9/10 : ℚ) - 1| < 1
    rw [abs_of_nonpos (by norm_num)]
    norm_num
  · have h09 : ⌊(9/10 : ℚ)⌋ = 0 := by
      rw [Int.floor_eq_iff]
      norm_num
    simp [pollStep, quantEq, h09]

/-- C4 (amended): for every pair of snapshots that agree on title, artist,
album and isPlaying and whose positions are equal after quantizing to whole
seconds, the poller emits no change event. -/
theorem pollStep_no_event_when_quantized_equal (p c : PlaybackSnapshot)
    (ht : p.title = c.title) (ha : p.artist = c.artist)
    (hb : p.album = c.album) (hp : p.isPlaying = c.isPlaying)
    (hq : ⌊p.positionSecs⌋ = ⌊c.positionSecs⌋) :
    pollStep (some p) (some c) = none := by
  simp [pollStep, quantEq, ht, ha, hb, hp, hq]

/-- Witness for the amended C4 at a concrete repeated snapshot. -/
theorem pollStep_no_event_when_quantized_equal_witness :
    pollStep (some (PlaybackSnapshot.mk "A" "B" "C" 200 10 true))
      (some (PlaybackSnapshot.mk "A" "B" "C" 200 10 true)) = none :=
  pollStep_no_event_when_quantized_equal
    (PlaybackSnapshot.mk "A" "B" "C" 200 10 true)
    (PlaybackSnapshot.mk "A" "B" "C" 200 10 true) rfl rfl rfl rfl rfl

/-- C5: every activity frame built for a Playing snapshot carries
`start = now - positionSecs` and `end = start + durationSecs`; for the
scenario snapshot (position 10, duration 200) the single frame emitted by a
fresh publish tick carries `start = now - 10` and `end = now + 190`. -/
theorem activity_frame_timestamps (now : ℚ) (s : PlaybackSnapshot)
    (art : ArtworkRef) :
    (buildActivity now s art).startTs = now - s.positionSecs ∧
    (buildActivity now s art).endTs =
      (buildActivity now s art).startTs + s.durationSecs ∧
    (buildActivity now (PlaybackSnapshot.mk "A" "B" "C" 200 10 true) art).startTs =
      now - 10 ∧
    (buildActivity now (PlaybackSnapshot.mk "A" "B" "C" 200 10 true) art).endTs =
      now + 190 ∧
    (publishTick now (PlaybackSnapshot.mk "A" "B" "C" 200 10 true) art none).1 =
      some (buildActivity now (PlaybackSnapshot.mk "A" "B" "C" 200 10 true) art) := by
  refine ⟨rfl, rfl, rfl, ?_, ?_⟩
  · show now - 10 + 200 = now + 190
    ring
  · simp [publishTick]

/-- C6: reconnection delays start at 1 s, double up to the 30 s cap, never
exceed 30 s; while enabled, a dropped connection enters `connecting` and
every failed attempt yields another `connecting` state (the retry sequence
never terminates), and an accepted handshake yields `connected` and
re-publishes the last known Playing state. -/
theorem session_reconnect_backoff (st : SessionState) (now : ℚ)
    (henabled : st.enabled = true) :
    backoffDelaySecs 0 = 1 ∧
    (∀ n, backoffDelaySecs n ≤ 30) ∧
    (∀ n, backoffDelaySecs (n + 1) = min (2 * backoffDelaySecs n) 30) ∧
    (onDisconnect st).conn = ConnState.connecting 0 ∧
    (∀ n, (onAttemptFailed { st with conn := ConnState.connecting n }).conn =
      ConnState.connecting (n + 1)) ∧
    (∀ (s : PlaybackSnapshot) (a : ArtworkRef),
      st.lastPlaying = some (s, a) →
        (onHandshakeAccepted now st).1.conn = ConnState.connected ∧
        (onHandshakeAccepted now st).2 = some (buildActivity now s a)) := by
  refine ⟨rfl, fun n => min_le_right _ _, fun n => ?_, ?_, fun n => ?_,
    fun s a h => ⟨rfl, ?_⟩⟩
  · simp only [backoffDelaySecs]
    have h2 : 2 ^ (n + 1) = 2 * 2 ^ n := by ring
    omega
  · simp [onDisconnect, henabled]
  · simp [onAttemptFailed, henabled]
  · simp [onHandshakeAccepted, h]

/-- Witness for C6 at a concrete enabled session with a stored Playing
payload. -/
theorem session_reconnect_backoff_witness :
    backoffDelaySecs 0 = 1 ∧
    (∀ n, backoffDelaySecs n ≤ 30) ∧
    (∀ n, backoffDelaySecs (n + 1) = min (2 * backoffDelaySecs n) 30) ∧
    (onDisconnect witnessSession).conn = ConnState.connecting 0 ∧
    (∀ n, (onAttemptFailed
        { witnessSession with conn := ConnState.connecting n }).conn =
      ConnState.connecting (n + 1)) ∧
    (∀ (s : PlaybackSnapshot) (a : ArtworkRef),
      witnessSession.lastPlaying = some (s, a) →
        (onHandshakeAccepted 0 witnessSession).1.conn = ConnState.connected ∧
        (onHandshakeAccepted 0 witnessSession).2 =
          some (buildActivity 0 s a)) :=
  session_reconnect_backoff witnessSession 0 rfl

/-- C7: ingestion clamps — for every raw snapshot the stored position
satisfies `0 ≤ position ≤ duration`; out-of-range values are clamped into
the range, and ingestion always produces a snapshot (never rejects). -/
theorem ingest_clamps_position_into_range (title artist album : String)
    (dur pos : ℚ) (playing : Bool) :
    0 ≤ (ingestSnapshot title artist album dur pos playing).positionSecs ∧
    (ingestSnapshot title artist album dur pos playing).positionSecs ≤
      (ingestSnapshot title artist album dur pos playing).durationSecs := by
  constructor
  · exact le_max_left 0 _
  · exact max_le (le_max_left 0 dur) (min_le_right pos _)

end AMDP
